import Mathlib

/-!
# Verification of the abank-marketing-crew task-graph orchestration

Shallow embedding of the repository's workflow definitions (`crew.py`),
input validators (`utils/validators.py`) and workflow runners (`main.py`),
together with the sequential task-graph executor semantics that the
repository delegates to its orchestration framework (modelled from the
spec where the framework code is not part of the repository).
-/

/-- A task of a workflow: a unique name, the name of the executor ("agent")
assigned to it, and the names of its upstream dependency tasks ("context"),
in declaration order.  Translated from the `Task(...)` constructions in
`crew.py` (descriptions and expected outputs are opaque payloads and are
not part of the graph structure). -/
structure WTask where
  name : String
  agent : String
  deps : List String
deriving Repr, DecidableEq

/-- A workflow ("Crew"): the declared executor set and the declared,
ordered task list.  Translated from the `Crew(...)` constructions in
`crew.py`. -/
structure CrewDef where
  agents : List String
  tasks : List WTask
deriving Repr, DecidableEq

/-- The product-launch crew, translated from
`MarketingCrew.product_launch_crew` and the six `@task` methods
`product_launch_market_analysis` .. `product_launch_performance_monitoring`
in `crew.py`: each task's `deps` is the list of `context` tasks it is
constructed with, and `tasks` follows the order of the crew's task list. -/
def productLaunchCrew : CrewDef :=
  { agents := [
      "market_intelligence_agent",
      "customer_segmentation_agent",
      "content_strategy_agent",
      "compliance_risk_agent",
      "campaign_execution_agent",
      "performance_analytics_agent"],
    tasks := [
      { name := "product_launch_market_analysis",
        agent := "market_intelligence_agent",
        deps := [] },
      { name := "product_launch_segmentation",
        agent := "customer_segmentation_agent",
        deps := ["product_launch_market_analysis"] },
      { name := "product_launch_content_strategy",
        agent := "content_strategy_agent",
        deps := ["product_launch_market_analysis",
                 "product_launch_segmentation"] },
      { name := "product_launch_compliance_review",
        agent := "compliance_risk_agent",
        deps := ["product_launch_content_strategy"] },
      { name := "product_launch_execution_plan",
        agent := "campaign_execution_agent",
        deps := ["product_launch_content_strategy",
                 "product_launch_compliance_review"] },
      { name := "product_launch_performance_monitoring",
        agent := "performance_analytics_agent",
        deps := ["product_launch_execution_plan"] } ] }

/-- The real-time response crew, translated from
`MarketingCrew.real_time_response_crew` in `crew.py`. -/
def realTimeResponseCrew : CrewDef :=
  { agents := [
      "market_intelligence_agent",
      "content_strategy_agent",
      "compliance_risk_agent",
      "campaign_execution_agent",
      "performance_analytics_agent"],
    tasks := [
      { name := "real_time_market_monitoring",
        agent := "market_intelligence_agent",
        deps := [] },
      { name := "real_time_response_strategy",
        agent := "content_strategy_agent",
        deps := ["real_time_market_monitoring"] },
      { name := "real_time_compliance_check",
        agent := "compliance_risk_agent",
        deps := ["real_time_response_strategy"] },
      { name := "real_time_campaign_deployment",
        agent := "campaign_execution_agent",
        deps := ["real_time_compliance_check"] },
      { name := "real_time_impact_measurement",
        agent := "performance_analytics_agent",
        deps := ["real_time_campaign_deployment"] } ] }

/-- The personalized-journey crew, translated from
`MarketingCrew.personalized_journey_crew` in `crew.py`. -/
def personalizedJourneyCrew : CrewDef :=
  { agents := [
      "customer_segmentation_agent",
      "content_strategy_agent",
      "campaign_execution_agent",
      "performance_analytics_agent"],
    tasks := [
      { name := "journey_micro_segmentation",
        agent := "customer_segmentation_agent",
        deps := [] },
      { name := "journey_personalized_content",
        agent := "content_strategy_agent",
        deps := ["journey_micro_segmentation"] },
      { name := "journey_automated_deployment",
        agent := "campaign_execution_agent",
        deps := ["journey_personalized_content"] },
      { name := "journey_engagement_analysis",
        agent := "performance_analytics_agent",
        deps := ["journey_automated_deployment"] } ] }

/-- A task is ready once every one of its dependencies has completed. -/
def readyTask (done : List String) (t : WTask) : Bool :=
  t.deps.all (fun d => done.contains d)

/-- Modelled from the spec: one step of the stable topological sort of
§4.1 — among the pending tasks, pick the first (declaration-order
tie-break) whose dependencies are all completed; fail (`none`, the
`GraphError` case) when no pending task is ready.  Fuel-indexed so that
exhausting the fuel with tasks still pending also reports failure. -/
def kahnAux : Nat → List String → List WTask → Option (List WTask)
  | 0, _, [] => some []
  | 0, _, _ :: _ => none
  | _ + 1, _, [] => some []
  | fuel + 1, done, t :: pending =>
    match List.find? (readyTask done) (t :: pending) with
    | none => none
    | some u =>
      (kahnAux fuel (u.name :: done)
        (List.eraseP (fun v => v.name == u.name) (t :: pending))).map
        (fun rest => u :: rest)

/-- Modelled from the spec: resolve the execution order of a workflow by a
stable topological sort over its declared task list (§4.1), returning
`none` (a `GraphError`) when the dependency graph cannot be linearised. -/
def resolveOrder (c : CrewDef) : Option (List WTask) :=
  kahnAux c.tasks.length [] c.tasks

/-- `depsPrecedeAux seen ts` holds when, scanning `ts` left to right, every
task's dependencies are among `seen` or the names of earlier tasks of
`ts`. -/
def depsPrecedeAux : List String → List WTask → Bool
  | _, [] => true
  | seen, t :: rest =>
    t.deps.all (fun d => seen.contains d) && depsPrecedeAux (t.name :: seen) rest

/-- A task list is a valid topological order when every task's
dependencies appear strictly before it in the list. -/
def validTopoOrder (ts : List WTask) : Bool :=
  depsPrecedeAux [] ts

deriving instance DecidableEq for Except

/-- An executor set: given a task, the caller-supplied inputs, and the
concatenated context of its completed dependencies, produce the task's
output or signal an `ExecutionError`.  Modelled from the spec: the
agent-reasoning engine behind each task invocation is an opaque external
collaborator (§1, §4.1). -/
structure Executor where
  run : WTask → List (String × String) → String → Except String String

/-- The effective input ("context") of a task: the completed results of
its upstream tasks, concatenated in dependency order (§4.1). -/
def contextOf (acc : List (String × String)) (t : WTask) : String :=
  String.join (t.deps.map (fun d => (acc.lookup d).getD ""))

/-- Modelled from the spec: the sequential execution loop of §4.1 — run
each task in resolved order after all its dependencies, accumulating
results by task name and recording the trace of executor invocations;
fail fast on the first `ExecutionError` (§4.1, failure propagation). -/
def runSeq (e : Executor) (inputs : List (String × String)) :
    List WTask → List (String × String) → List String →
    List String × Except String (List (String × String))
  | [], acc, tr => (tr, Except.ok acc)
  | t :: rest, acc, tr =>
    match e.run t inputs (contextOf acc t) with
    | Except.error m => (tr ++ [t.name], Except.error m)
    | Except.ok out => runSeq e inputs rest (acc ++ [(t.name, out)]) (tr ++ [t.name])

/-- Modelled from the spec: a full workflow run (`crew.kickoff`) — resolve
the order (a `GraphError` aborts before any execution), run the tasks
sequentially, and return the last task's output as the workflow result
(§4.1, output), together with the trace of executor invocations. -/
def kickoffTrace (e : Executor) (c : CrewDef) (inputs : List (String × String)) :
    List String × Except String String :=
  match resolveOrder c with
  | none => ([], Except.error "GraphError")
  | some ord =>
    let r := runSeq e inputs ord [] []
    (r.1, r.2.map (fun results => ((results.getLast?).map Prod.snd).getD ""))

/-- Factory dispatch, translated from `create_crew` in `crew.py`: the
three known workflow identifiers map to their crews; any other identifier
raises `ValueError("Unknown workflow type: ...")` without constructing a
workflow. -/
def create_crew (workflow : String) : Except String CrewDef :=
  if workflow == "product_launch" then Except.ok productLaunchCrew
  else if workflow == "real_time_response" then Except.ok realTimeResponseCrew
  else if workflow == "personalized_journey" then Except.ok personalizedJourneyCrew
  else Except.error ("Unknown workflow type: " ++ workflow)

/-- The shape of the dictionary returned by the `run_*_workflow` functions
in `main.py`: `status` is `"success"` with a `result` key, or `"failed"`
with an `error` key. -/
inductive RunOutcome where
  | success (result : String)
  | failed (error : String)
deriving Repr, DecidableEq

/-- Translated from `run_product_launch_workflow` in `main.py`: create the
crew and kick it off inside a `try`; any exception from creation or
kickoff is caught and turned into a `failed` dictionary.  No input
validation is performed before the kickoff. -/
def run_product_launch_workflow (e : Executor) (inputs : List (String × String)) :
    RunOutcome :=
  match create_crew "product_launch" with
  | Except.error m => RunOutcome.failed m
  | Except.ok c =>
    match (kickoffTrace e c inputs).2 with
    | Except.ok r => RunOutcome.success r
    | Except.error m => RunOutcome.failed m

/-- Translated from `run_real_time_response_workflow` in `main.py`. -/
def run_real_time_response_workflow (e : Executor) (inputs : List (String × String)) :
    RunOutcome :=
  match create_crew "real_time_response" with
  | Except.error m => RunOutcome.failed m
  | Except.ok c =>
    match (kickoffTrace e c inputs).2 with
    | Except.ok r => RunOutcome.success r
    | Except.error m => RunOutcome.failed m

/-- Translated from `run_personalized_journey_workflow` in `main.py`. -/
def run_personalized_journey_workflow (e : Executor) (inputs : List (String × String)) :
    RunOutcome :=
  match create_crew "personalized_journey" with
  | Except.error m => RunOutcome.failed m
  | Except.ok c =>
    match (kickoffTrace e c inputs).2 with
    | Except.ok r => RunOutcome.success r
    | Except.error m => RunOutcome.failed m

/-- Gregorian leap-year rule, as `datetime` applies it. -/
def isLeapYear (y : Nat) : Bool :=
  y % 4 == 0 && (y % 100 != 0 || y % 400 == 0)

/-- Length of a month, as `datetime` validates the day component. -/
def daysInMonth (y m : Nat) : Nat :=
  if m == 2 then (if isLeapYear y then 29 else 28)
  else if m == 4 || m == 6 || m == 9 || m == 11 then 30
  else 31

/-- Split a character list at every hyphen, mirroring Python's behaviour
of `s.split("-")`: the empty string gives one empty group, and hyphens at
either end give empty groups. -/
def splitHyphens : List Char → List (List Char)
  | [] => [[]]
  | c :: rest =>
    let r := splitHyphens rest
    if c == '-' then [] :: r
    else
      match r with
      | [] => [[c]]
      | g :: gs => (c :: g) :: gs

/-- The numeric value of a digit string. -/
def digitsToNat (cs : List Char) : Nat :=
  cs.foldl (fun n c => n * 10 + (c.toNat - 48)) 0

/-- `datetime.strptime(s, "%Y-%m-%d")` succeeds: the string is exactly a
four-digit year, a one- or two-digit month and a one- or two-digit day
separated by hyphens (CPython's `_strptime` patterns for `%Y`, `%m`,
`%d`), and the resulting calendar date is valid (year at least 1, day no
larger than the month's length). -/
def strptimeYmd (s : String) : Bool :=
  match splitHyphens s.toList with
  | [ys, ms, ds] =>
    ys.length == 4 && ys.all Char.isDigit &&
    (ms.length == 1 || ms.length == 2) && ms.all Char.isDigit &&
    (ds.length == 1 || ds.length == 2) && ds.all Char.isDigit &&
    (let y := digitsToNat ys
     let m := digitsToNat ms
     let d := digitsToNat ds
     decide (1 ≤ y) && decide (1 ≤ m) && decide (m ≤ 12) &&
     decide (1 ≤ d) && decide (d ≤ daysInMonth y m))
  | _ => false

/-- Translated from `validate_workflow_inputs` in `utils/validators.py`:
for `product_launch`, each of `product_name` and `launch_date` that is
absent or falsy (empty) contributes a missing-field error, and a present
`launch_date` that `strptime` rejects contributes a format error; the
other two workflows only check key presence.  Returns
`(errors.isEmpty, errors)`. -/
def validate_workflow_inputs (workflow : String) (inputs : List (String × String)) :
    Bool × List String :=
  let errors : List String :=
    if workflow == "product_launch" then
      (["product_name", "launch_date"].filterMap (fun f =>
        match inputs.lookup f with
        | none => some ("Missing required field: " ++ f)
        | some v =>
          if v == "" then some ("Missing required field: " ++ f) else none))
      ++ (match inputs.lookup "launch_date" with
          | none => []
          | some v =>
            if strptimeYmd v then []
            else ["Invalid launch_date format. Use YYYY-MM-DD"])
    else if workflow == "real_time_response" then
      match inputs.lookup "monitoring_priorities" with
      | none => ["Missing monitoring_priorities"]
      | some _ => []
    else if workflow == "personalized_journey" then
      match inputs.lookup "analysis_date" with
      | none => ["Missing analysis_date"]
      | some _ => []
    else []
  (errors.isEmpty, errors)

/-- A task list is strictly linear when the first task has no
dependencies and each later task's dependency list is exactly the
singleton of its immediate predecessor. -/
def strictlyLinearAux : String → List WTask → Bool
  | _, [] => true
  | prev, t :: rest => t.deps == [prev] && strictlyLinearAux t.name rest

/-- A workflow's task list forms a strictly linear chain. -/
def strictlyLinear : List WTask → Bool
  | [] => true
  | t :: rest => t.deps.isEmpty && strictlyLinearAux t.name rest

/-- Invariant of §3: every executor referenced by a task is present in the
workflow's executor set. -/
def agentsCover (c : CrewDef) : Bool :=
  c.tasks.all (fun t => c.agents.contains t.agent)

/-- A deterministic stub executor set whose every invocation succeeds. -/
def stubExecutor : Executor :=
  ⟨fun t _ _ => Except.ok ("output:" ++ t.name)⟩

/-- A second deterministic stub executor set with different outputs. -/
def stubExecutorAlt : Executor :=
  ⟨fun t _ _ => Except.ok ("result-" ++ t.name)⟩

/-- A stub executor set that fails on the task named `A` and succeeds on
every other task. -/
def failOnA : Executor :=
  ⟨fun t _ _ =>
    if t.name == "A" then Except.error "task A failed"
    else Except.ok ("output:" ++ t.name)⟩

/-- The three-task chain `[A, B(dep A), C(dep B)]` of §8. -/
def abcCrew : CrewDef :=
  { agents := ["ag"],
    tasks := [
      { name := "A", agent := "ag", deps := [] },
      { name := "B", agent := "ag", deps := ["A"] },
      { name := "C", agent := "ag", deps := ["B"] } ] }

/-- A two-task workflow whose dependency graph is the cycle `A ↔ B`. -/
def cyclicCrew : CrewDef :=
  { agents := ["ag"],
    tasks := [
      { name := "A", agent := "ag", deps := ["B"] },
      { name := "B", agent := "ag", deps := ["A"] } ] }

/-- The end-to-end scenario inputs of §8. -/
def launchInputs : List (String × String) :=
  [("product_name", "Youth Digital Savings Account"),
   ("launch_date", "2025-03-01")]


theorem kahnAux_sound (fuel : Nat) :
    ∀ done pending ord, kahnAux fuel done pending = some ord →
      depsPrecedeAux done ord = true := by
  induction fuel with
  | zero =>
    intro done pending ord h
    cases pending with
    | nil =>
      simp [kahnAux] at h
      subst h
      rfl
    | cons t ts => simp [kahnAux] at h
  | succ k ih =>
    intro done pending ord h
    cases pending with
    | nil =>
      simp [kahnAux] at h
      subst h
      rfl
    | cons t ts =>
      unfold kahnAux at h
      cases hf : List.find? (readyTask done) (t :: ts) with
      | none => rw [hf] at h; simp at h
      | some u =>
        rw [hf] at h
        dsimp only at h
        cases hk : kahnAux k (u.name :: done)
            (List.eraseP (fun v => v.name == u.name) (t :: ts)) with
        | none => rw [hk] at h; simp at h
        | some rest =>
          rw [hk] at h
          simp at h
          subst h
          have hready : readyTask done u = true := List.find?_some hf
          simp [readyTask] at hready
          simp [depsPrecedeAux]
          exact ⟨hready, ih _ _ _ hk⟩

/-- C1: for every workflow whose order resolution succeeds, the resolved
execution order is a valid topological order (every dependency of a task
appears before it), and with declaration order as the tie-break the
resolved order of each of the three declared crews equals the order in
which its tasks appear in the crew's task list, a list in which every
task's context tasks precede it. -/
theorem resolved_order_is_topological (c : CrewDef) (ord : List WTask)
    (h : resolveOrder c = some ord) :
    validTopoOrder ord = true ∧
    resolveOrder productLaunchCrew = some productLaunchCrew.tasks ∧
    resolveOrder realTimeResponseCrew = some realTimeResponseCrew.tasks ∧
    resolveOrder personalizedJourneyCrew = some personalizedJourneyCrew.tasks ∧
    validTopoOrder productLaunchCrew.tasks = true ∧
    validTopoOrder realTimeResponseCrew.tasks = true ∧
    validTopoOrder personalizedJourneyCrew.tasks = true :=
  ⟨kahnAux_sound _ _ _ _ h, by decide, by decide, by decide,
   by decide, by decide, by decide⟩

theorem resolved_order_is_topological_witness :
    validTopoOrder productLaunchCrew.tasks = true ∧
    resolveOrder productLaunchCrew = some productLaunchCrew.tasks ∧
    resolveOrder realTimeResponseCrew = some realTimeResponseCrew.tasks ∧
    resolveOrder personalizedJourneyCrew = some personalizedJourneyCrew.tasks ∧
    validTopoOrder productLaunchCrew.tasks = true ∧
    validTopoOrder realTimeResponseCrew.tasks = true ∧
    validTopoOrder personalizedJourneyCrew.tasks = true :=
  resolved_order_is_topological productLaunchCrew productLaunchCrew.tasks (by decide)

/-- C2 counterexample: the product-launch dependency graph is not a
strictly linear chain — its third task, `product_launch_content_strategy`,
depends on both `product_launch_market_analysis` and
`product_launch_segmentation`, not on its immediate predecessor alone
(and the fifth task likewise carries two dependencies). -/
theorem product_launch_not_strictly_linear :
    strictlyLinear productLaunchCrew.tasks = false ∧
    (productLaunchCrew.tasks.map WTask.deps)[2]? =
      some ["product_launch_market_analysis", "product_launch_segmentation"] := by
  decide

/-- C2 (amended): the product-launch workflow consists of exactly six
tasks declared in the order market_analysis, segmentation,
content_strategy, compliance_review, execution_plan,
performance_monitoring, each task's dependencies all preceding it, with
the chain edge from each task to its immediate predecessor present
(content_strategy additionally depends on market_analysis and
execution_plan additionally on content_strategy); running the workflow
with the §8 inputs against a deterministic stub executor set produces
exactly six sequential executor invocations in declared order, and the
workflow's final result equals the performance_monitoring task's
output. -/
theorem product_launch_end_to_end :
    productLaunchCrew.tasks.map WTask.name =
      ["product_launch_market_analysis",
       "product_launch_segmentation",
       "product_launch_content_strategy",
       "product_launch_compliance_review",
       "product_launch_execution_plan",
       "product_launch_performance_monitoring"] ∧
    productLaunchCrew.tasks.map WTask.deps =
      [[],
       ["product_launch_market_analysis"],
       ["product_launch_market_analysis", "product_launch_segmentation"],
       ["product_launch_content_strategy"],
       ["product_launch_content_strategy", "product_launch_compliance_review"],
       ["product_launch_execution_plan"]] ∧
    kickoffTrace stubExecutor productLaunchCrew launchInputs =
      (["product_launch_market_analysis",
        "product_launch_segmentation",
        "product_launch_content_strategy",
        "product_launch_compliance_review",
        "product_launch_execution_plan",
        "product_launch_performance_monitoring"],
       Except.ok "output:product_launch_performance_monitoring") ∧
    (productLaunchCrew.tasks.getLast?).map WTask.name =
      some "product_launch_performance_monitoring" := by
  decide

/-- C5: the spec requires caller-supplied inputs to be validated before
any executor invocation, but `run_product_launch_workflow` never calls
`validate_workflow_inputs`: on the empty inputs map (which the validator
rejects for both missing `product_name` and missing `launch_date`), the
run still invokes all six executors and reports success. -/
theorem missing_inputs_not_validated :
    (validate_workflow_inputs "product_launch" []).1 = false ∧
    (validate_workflow_inputs "product_launch" []).2 =
      ["Missing required field: product_name",
       "Missing required field: launch_date"] ∧
    (kickoffTrace stubExecutor productLaunchCrew []).1 =
      productLaunchCrew.tasks.map WTask.name ∧
    run_product_launch_workflow stubExecutor [] =
      RunOutcome.success "output:product_launch_performance_monitoring" := by
  decide

/-- C6: every executor referenced by a task of a declared crew is present
in that crew's executor set, for each of the three declared crews. -/
theorem crews_reference_declared_agents :
    agentsCover productLaunchCrew = true ∧
    agentsCover realTimeResponseCrew = true ∧
    agentsCover personalizedJourneyCrew = true := by
  decide

/-- C7: `create_crew` accepts exactly the three workflow identifiers,
returning the corresponding configured workflow for each, and fails with
a `ValueError` for every other identifier without constructing a
workflow. -/
theorem create_crew_dispatch (w : String)
    (h : w ≠ "product_launch" ∧ w ≠ "real_time_response" ∧
      w ≠ "personalized_journey") :
    create_crew "product_launch" = Except.ok productLaunchCrew ∧
    create_crew "real_time_response" = Except.ok realTimeResponseCrew ∧
    create_crew "personalized_journey" = Except.ok personalizedJourneyCrew ∧
    create_crew w = Except.error ("Unknown workflow type: " ++ w) := by
  obtain ⟨h1, h2, h3⟩ := h
  refine ⟨by decide, by decide, by decide, ?_⟩
  simp [create_crew, h1, h2, h3]

theorem create_crew_dispatch_witness :
    create_crew "product_launch" = Except.ok productLaunchCrew ∧
    create_crew "real_time_response" = Except.ok realTimeResponseCrew ∧
    create_crew "personalized_journey" = Except.ok personalizedJourneyCrew ∧
    create_crew "nonexistent_workflow" =
      Except.error ("Unknown workflow type: " ++ "nonexistent_workflow") :=
  create_crew_dispatch "nonexistent_workflow" ⟨by decide, by decide, by decide⟩

theorem kahnAux_stuck (S : List String) (hS : S ≠ []) :
    ∀ fuel done pending,
      (pending.map WTask.name).Nodup →
      (∀ n ∈ S, n ∉ done) →
      (∀ n ∈ S, ∃ t ∈ pending, t.name = n ∧ ∃ d ∈ t.deps, d ∈ S) →
      kahnAux fuel done pending = none := by
  intro fuel
  induction fuel with
  | zero =>
    intro done pending _ _ hpend
    cases pending with
    | nil =>
      cases S with
      | nil => exact absurd rfl hS
      | cons n S' =>
        obtain ⟨t, ht, -⟩ := hpend n (List.mem_cons_self n S')
        exact absurd ht (List.not_mem_nil t)
    | cons t ts => rfl
  | succ k ih =>
    intro done pending hnd hdone hpend
    cases pending with
    | nil =>
      cases S with
      | nil => exact absurd rfl hS
      | cons n S' =>
        obtain ⟨t, ht, -⟩ := hpend n (List.mem_cons_self n S')
        exact absurd ht (List.not_mem_nil t)
    | cons t ts =>
      unfold kahnAux
      cases hf : List.find? (readyTask done) (t :: ts) with
      | none => rfl
      | some u =>
        dsimp only
        have hready : readyTask done u = true := List.find?_some hf
        simp only [readyTask, List.all_eq_true, List.contains, List.elem_eq_mem,
          decide_eq_true_eq] at hready
        have humem : u ∈ t :: ts := List.mem_of_find?_eq_some hf
        have huS : u.name ∉ S := by
          intro huSmem
          obtain ⟨t', ht'mem, ht'name, d, hd, hdS⟩ := hpend u.name huSmem
          have ht'u : t' = u := List.inj_on_of_nodup_map hnd ht'mem humem ht'name
          subst ht'u
          exact hdone d hdS (hready d hd)
        have hsub : List.Sublist
            ((List.eraseP (fun v => v.name == u.name) (t :: ts)).map WTask.name)
            ((t :: ts).map WTask.name) :=
          (List.eraseP_sublist _).map _
        have hnd' := hnd.sublist hsub
        have hdone' : ∀ n ∈ S, n ∉ (u.name :: done) := by
          intro n hn
          simp only [List.mem_cons, not_or]
          exact ⟨fun he => huS (he ▸ hn), hdone n hn⟩
        have hpend' : ∀ n ∈ S,
            ∃ t' ∈ List.eraseP (fun v => v.name == u.name) (t :: ts),
              t'.name = n ∧ ∃ d ∈ t'.deps, d ∈ S := by
          intro n hn
          obtain ⟨t', ht'mem, ht'name, hddep⟩ := hpend n hn
          have hne : ¬ ((fun v : WTask => v.name == u.name) t' = true) := by
            simp only [beq_iff_eq]
            intro he
            exact huS (by rw [← he, ht'name]; exact hn)
          have hiff : t' ∈ List.eraseP (fun v => v.name == u.name) (t :: ts) ↔
              t' ∈ (t :: ts) :=
            List.mem_eraseP_of_neg hne
          exact ⟨t', hiff.mpr ht'mem, ht'name, hddep⟩
        rw [ih (u.name :: done)
          (List.eraseP (fun v => v.name == u.name) (t :: ts)) hnd' hdone' hpend']
        rfl

/-- C4: for every workflow whose task dependency graph contains a cycle
(witnessed by a nonempty set `S` of task names each of which labels a
task with a dependency back inside `S`, task names being unique), the run
fails with `GraphError` at order-resolution time, before any execution
begins, with zero executor invocations. -/
theorem cycle_gives_graph_error (e : Executor) (inputs : List (String × String))
    (c : CrewDef) (S : List String) (hS : S ≠ [])
    (hnd : (c.tasks.map WTask.name).Nodup)
    (hcyc : ∀ n ∈ S, ∃ t ∈ c.tasks, t.name = n ∧ ∃ d ∈ t.deps, d ∈ S) :
    resolveOrder c = none ∧
    kickoffTrace e c inputs = ([], Except.error "GraphError") := by
  have hres : resolveOrder c = none :=
    kahnAux_stuck S hS c.tasks.length [] c.tasks hnd
      (by intro n _; exact List.not_mem_nil n) hcyc
  exact ⟨hres, by simp [kickoffTrace, hres]⟩

theorem cycle_gives_graph_error_witness :
    resolveOrder cyclicCrew = none ∧
    kickoffTrace stubExecutor cyclicCrew [] = ([], Except.error "GraphError") :=
  cycle_gives_graph_error stubExecutor [] cyclicCrew ["A", "B"]
    (by decide) (by decide) (by decide)

/-- C3: if a task's executor invocation signals an `ExecutionError`, the
workflow run fails immediately with that error — the failing task is the
last invocation, no downstream task is attempted and no partial result is
substituted; in particular, for the workflow `[A, B(dep A), C(dep B)]`
where `A` fails, there is exactly one executor invocation (`A`) and zero
invocations of `B` or `C`. -/
theorem failure_aborts_workflow (e : Executor) (inputs : List (String × String))
    (t : WTask) (rest : List WTask) (acc : List (String × String))
    (tr : List String) (m : String)
    (h : e.run t inputs (contextOf acc t) = Except.error m) :
    runSeq e inputs (t :: rest) acc tr = (tr ++ [t.name], Except.error m) ∧
    kickoffTrace failOnA abcCrew [] = (["A"], Except.error "task A failed") := by
  constructor
  · simp [runSeq, h]
  · decide

theorem failure_aborts_workflow_witness :
    runSeq failOnA [] [{ name := "A", agent := "ag", deps := [] }] [] [] =
      (["A"], Except.error "task A failed") ∧
    kickoffTrace failOnA abcCrew [] = (["A"], Except.error "task A failed") :=
  failure_aborts_workflow failOnA [] { name := "A", agent := "ag", deps := [] }
    [] [] [] "task A failed" (by decide)

theorem runSeq_ok_trace (e : Executor) (inputs : List (String × String)) :
    ∀ (ts : List WTask) (acc : List (String × String)) (tr : List String)
      (res : List (String × String)),
      (runSeq e inputs ts acc tr).2 = Except.ok res →
      (runSeq e inputs ts acc tr).1 = tr ++ ts.map WTask.name := by
  intro ts
  induction ts with
  | nil =>
    intro acc tr res _
    simp [runSeq]
  | cons t rest ih =>
    intro acc tr res h
    cases he : e.run t inputs (contextOf acc t) with
    | error m =>
      simp only [runSeq, he] at h
      exact Except.noConfusion h
    | ok out =>
      simp only [runSeq, he] at h ⊢
      rw [ih _ _ _ h]
      simp

/-- C8: the resolved execution order is deterministic — it is a pure
function of the declared graph: two successful runs of the same workflow
definition, even against different executor sets and different inputs,
invoke the executors in the same order. -/
theorem resolved_order_deterministic (e₁ e₂ : Executor)
    (i₁ i₂ : List (String × String)) (c : CrewDef) (r₁ r₂ : String)
    (h₁ : (kickoffTrace e₁ c i₁).2 = Except.ok r₁)
    (h₂ : (kickoffTrace e₂ c i₂).2 = Except.ok r₂) :
    (kickoffTrace e₁ c i₁).1 = (kickoffTrace e₂ c i₂).1 := by
  unfold kickoffTrace at h₁ h₂ ⊢
  cases hres : resolveOrder c with
  | none =>
    rw [hres] at h₁
  | some ord =>
    rw [hres] at h₁ h₂
    dsimp only at h₁ h₂ ⊢
    cases hk₁ : (runSeq e₁ i₁ ord [] []).2 with
    | error m =>
      rw [hk₁] at h₁
      simp [Except.map] at h₁
    | ok res₁ =>
      cases hk₂ : (runSeq e₂ i₂ ord [] []).2 with
      | error m =>
        rw [hk₂] at h₂
        simp [Except.map] at h₂
      | ok res₂ =>
        rw [runSeq_ok_trace e₁ i₁ ord [] [] res₁ hk₁,
            runSeq_ok_trace e₂ i₂ ord [] [] res₂ hk₂]

theorem resolved_order_deterministic_witness :
    (kickoffTrace stubExecutor productLaunchCrew launchInputs).1 =
      (kickoffTrace stubExecutorAlt productLaunchCrew []).1 :=
  resolved_order_deterministic stubExecutor stubExecutorAlt launchInputs []
    productLaunchCrew "output:product_launch_performance_monitoring"
    "result-product_launch_performance_monitoring" (by decide) (by decide)

/-- C9: for workflow `product_launch`, validation succeeds exactly when
the error list is empty, which holds exactly when `product_name` and
`launch_date` are both present and non-empty and `launch_date` parses
under the `%Y-%m-%d` format; a `launch_date` that is present but empty
yields both the missing-field error and the invalid-format error. -/
theorem validate_product_launch_characterisation (inputs : List (String × String)) :
    ((validate_workflow_inputs "product_launch" inputs).1 = true ↔
      (validate_workflow_inputs "product_launch" inputs).2 = []) ∧
    ((validate_workflow_inputs "product_launch" inputs).1 = true ↔
      ((∃ p, inputs.lookup "product_name" = some p ∧ p ≠ "") ∧
       (∃ d, inputs.lookup "launch_date" = some d ∧ d ≠ "" ∧
         strptimeYmd d = true))) ∧
    (inputs.lookup "launch_date" = some "" →
      "Missing required field: launch_date" ∈
        (validate_workflow_inputs "product_launch" inputs).2 ∧
      "Invalid launch_date format. Use YYYY-MM-DD" ∈
        (validate_workflow_inputs "product_launch" inputs).2) := by
  have hempty : strptimeYmd "" = false := rfl
  unfold validate_workflow_inputs
  cases hp : inputs.lookup "product_name" with
  | none =>
    cases hl : inputs.lookup "launch_date" with
    | none => simp [hp, hl, List.filterMap]
    | some v =>
      by_cases hve : v = ""
      · subst hve
        simp [hp, hl, List.filterMap, hempty]
      · by_cases hs : strptimeYmd v = true
        · simp [hp, hl, hve, hs, List.filterMap]
        · simp [hp, hl, hve, hs, List.filterMap]
  | some p =>
    by_cases hpe : p = ""
    · subst hpe
      cases hl : inputs.lookup "launch_date" with
      | none => simp [hp, hl, List.filterMap]
      | some v =>
        by_cases hve : v = ""
        · subst hve
          simp [hp, hl, List.filterMap, hempty]
        · by_cases hs : strptimeYmd v = true
          · simp [hp, hl, hve, hs, List.filterMap]
          · simp [hp, hl, hve, hs, List.filterMap]
    · cases hl : inputs.lookup "launch_date" with
      | none => simp [hp, hl, hpe, List.filterMap]
      | some v =>
        by_cases hve : v = ""
        · subst hve
          simp [hp, hl, hpe, List.filterMap, hempty]
        · by_cases hs : strptimeYmd v = true
          · simp [hp, hl, hpe, hve, hs, List.filterMap]
          · simp [hp, hl, hpe, hve, hs, List.filterMap]

theorem validate_product_launch_characterisation_witness :
    ((validate_workflow_inputs "product_launch"
        [("product_name", "X"), ("launch_date", "")]).1 = true ↔
      (validate_workflow_inputs "product_launch"
        [("product_name", "X"), ("launch_date", "")]).2 = []) ∧
    ((validate_workflow_inputs "product_launch"
        [("product_name", "X"), ("launch_date", "")]).1 = true ↔
      ((∃ p, ([("product_name", "X"), ("launch_date", "")] :
          List (String × String)).lookup "product_name" = some p ∧ p ≠ "") ∧
       (∃ d, ([("product_name", "X"), ("launch_date", "")] :
          List (String × String)).lookup "launch_date" = some d ∧ d ≠ "" ∧
         strptimeYmd d = true))) ∧
    (([("product_name", "X"), ("launch_date", "")] :
        List (String × String)).lookup "launch_date" = some "" →
      "Missing required field: launch_date" ∈
        (validate_workflow_inputs "product_launch"
          [("product_name", "X"), ("launch_date", "")]).2 ∧
      "Invalid launch_date format. Use YYYY-MM-DD" ∈
        (validate_workflow_inputs "product_launch"
          [("product_name", "X"), ("launch_date", "")]).2) :=
  validate_product_launch_characterisation
    [("product_name", "X"), ("launch_date", "")]

/-- C10: none of the three `run_*_workflow` functions propagates an
exception: for every executor set and inputs map, the result is a
`success` dictionary carrying the kickoff result when the kickoff
returns normally, and a `failed` dictionary carrying the error message
when crew creation or kickoff raises. -/
theorem run_workflows_never_propagate (e : Executor)
    (inputs : List (String × String)) :
    ((∃ r, (kickoffTrace e productLaunchCrew inputs).2 = Except.ok r ∧
        run_product_launch_workflow e inputs = RunOutcome.success r) ∨
     (∃ m, (kickoffTrace e productLaunchCrew inputs).2 = Except.error m ∧
        run_product_launch_workflow e inputs = RunOutcome.failed m)) ∧
    ((∃ r, (kickoffTrace e realTimeResponseCrew inputs).2 = Except.ok r ∧
        run_real_time_response_workflow e inputs = RunOutcome.success r) ∨
     (∃ m, (kickoffTrace e realTimeResponseCrew inputs).2 = Except.error m ∧
        run_real_time_response_workflow e inputs = RunOutcome.failed m)) ∧
    ((∃ r, (kickoffTrace e personalizedJourneyCrew inputs).2 = Except.ok r ∧
        run_personalized_journey_workflow e inputs = RunOutcome.success r) ∨
     (∃ m, (kickoffTrace e personalizedJourneyCrew inputs).2 = Except.error m ∧
        run_personalized_journey_workflow e inputs = RunOutcome.failed m)) := by
  refine ⟨?_, ?_, ?_⟩
  · cases hk : (kickoffTrace e productLaunchCrew inputs).2 with
    | error m =>
      exact Or.inr ⟨m, rfl, by simp [run_product_launch_workflow, create_crew, hk]⟩
    | ok r =>
      exact Or.inl ⟨r, rfl, by simp [run_product_launch_workflow, create_crew, hk]⟩
  · cases hk : (kickoffTrace e realTimeResponseCrew inputs).2 with
    | error m =>
      exact Or.inr ⟨m, rfl, by simp [run_real_time_response_workflow, create_crew, hk]⟩
    | ok r =>
      exact Or.inl ⟨r, rfl, by simp [run_real_time_response_workflow, create_crew, hk]⟩
  · cases hk : (kickoffTrace e personalizedJourneyCrew inputs).2 with
    | error m =>
      exact Or.inr ⟨m, rfl, by simp [run_personalized_journey_workflow, create_crew, hk]⟩
    | ok r =>
      exact Or.inl ⟨r, rfl, by simp [run_personalized_journey_workflow, create_crew, hk]⟩

theorem run_workflows_never_propagate_witness :
    ((∃ r, (kickoffTrace stubExecutor productLaunchCrew []).2 = Except.ok r ∧
        run_product_launch_workflow stubExecutor [] = RunOutcome.success r) ∨
     (∃ m, (kickoffTrace stubExecutor productLaunchCrew []).2 = Except.error m ∧
        run_product_launch_workflow stubExecutor [] = RunOutcome.failed m)) ∧
    ((∃ r, (kickoffTrace stubExecutor realTimeResponseCrew []).2 = Except.ok r ∧
        run_real_time_response_workflow stubExecutor [] = RunOutcome.success r) ∨
     (∃ m, (kickoffTrace stubExecutor realTimeResponseCrew []).2 = Except.error m ∧
        run_real_time_response_workflow stubExecutor [] = RunOutcome.failed m)) ∧
    ((∃ r, (kickoffTrace stubExecutor personalizedJourneyCrew []).2 = Except.ok r ∧
        run_personalized_journey_workflow stubExecutor [] = RunOutcome.success r) ∨
     (∃ m, (kickoffTrace stubExecutor personalizedJourneyCrew []).2 = Except.error m ∧
        run_personalized_journey_workflow stubExecutor [] = RunOutcome.failed m)) :=
  run_workflows_never_propagate stubExecutor []
